import Mathlib

/-!
Verification of the nexmeet-bot repository: a Telegram bot plus a small HTTP
API in front of one `event_details` table and an AI completion service.

The embedding below translates, from `src/index.js`, `src/routes/events.js`
and `src/routes/system.js`:
  * the `Event` row shape (the columns the code reads),
  * the query descriptions the code builds with the store client's builder
    (`gt` / `lt` / `eq` / `ilike` / `textSearch` / `order` / `limit`) and a
    reference evaluator for them over an in-memory table,
  * the per-chat session map (`userSessions`) and its two pending states,
  * the chat handlers (`callback_query`, `text`, `/ask`), modelled as
    functions from their inputs (including the outcome of each external store
    call) to the ordered list of externally visible actions they perform,
  * the event presenter `formatEventMessage`, and
  * the `/api/system/status` route's probe and response body.
External collaborators (the chat platform's send/acknowledge calls and the AI
service) appear as trace actions; their own failures are not modelled — the
store-call outcome, which the spec's claims condition on, is an explicit
parameter.
-/

namespace NexmeetBot

/-- One row of the `event_details` table, with exactly the columns the
repository reads.  Column values that the code only ever interpolates into
message text are modelled as `String`; `is_approved` and `isEventFree` are
booleans in the code's conditionals, and `event_likes` is numeric because the
popular query orders by it. -/
structure Event where
  id : String
  event_title : String
  event_description : String
  event_location : String
  event_category : String
  event_startdate : String
  event_enddate : String
  event_duration : String
  team_size : String
  event_price : String
  isEventFree : Bool
  event_registration_startdate : String
  event_registration_enddate : String
  redirection_link : Option String
  organizer_name : String
  organizer_email : String
  organizer_contact : String
  event_likes : Nat
  is_approved : Bool
  created_at : String
deriving DecidableEq

/-- Lexicographic order on character lists, by code point.  Stands in for the
store's ordering of the ISO-8601 timestamp strings the code passes to
`gt` / `lt` / `order`. -/
def charListLt : List Char → List Char → Bool
  | [], [] => false
  | [], _ :: _ => true
  | _ :: _, [] => false
  | a :: as, b :: bs =>
    a.toNat < b.toNat || (a.toNat == b.toNat && charListLt as bs)

/-- String comparison used by the query evaluator. -/
def strLtb (a b : String) : Bool := charListLt a.data b.data

/-- SQL `LIKE` / `ILIKE` pattern matching over character lists: `%` matches
any (possibly empty) sequence, `_` matches exactly one character, any other
pattern character matches itself case-insensitively. -/
def likeMatch : List Char → List Char → Bool
  | [], ts => ts.isEmpty
  | '%' :: ps, ts => ts.tails.any (fun suf => likeMatch ps suf)
  | '_' :: _, [] => false
  | '_' :: ps, _ :: ts => likeMatch ps ts
  | _ :: _, [] => false
  | p :: ps, t :: ts => (p.toLower == t.toLower) && likeMatch ps ts

/-- One filter step of a store query, mirroring the builder calls the code
chains: `.gt(col, v)`, `.lt(col, v)`, `.eq(col, bool)`, `.ilike(col, pat)`,
`.textSearch(col, q)`. -/
inductive Filt where
  | gt (col : String) (v : String)
  | lt (col : String) (v : String)
  | eqb (col : String) (b : Bool)
  | ilike (col : String) (pat : String)
  | textSearch (col : String) (q : String)
deriving DecidableEq

/-- A full query description: table, selected columns, filter chain, optional
`order(col, ascending)` and optional `limit`. -/
structure Query where
  table : String
  select : String
  filters : List Filt
  order : Option (String × Bool)
  lim : Option Nat
deriving DecidableEq

/-- The string-valued column accessor used when evaluating filters. -/
def colStr (e : Event) : String → String
  | "event_enddate" => e.event_enddate
  | "event_location" => e.event_location
  | "event_category" => e.event_category
  | "event_description" => e.event_description
  | "created_at" => e.created_at
  | _ => ""

/-- Evaluate one filter against one row.  Full-text search is delegated to the
store; it is abstracted as the parameter `fts` (field text, query string),
since no property proved here depends on its matching semantics. -/
def evalFilt (fts : String → String → Bool) (e : Event) : Filt → Bool
  | .gt col v => strLtb v (colStr e col)
  | .lt col v => strLtb (colStr e col) v
  | .eqb col b => (if col = "is_approved" then e.is_approved else false) == b
  | .ilike col pat => likeMatch pat.data (colStr e col).data
  | .textSearch col q => fts (colStr e col) q

/-- A row matches a query when it passes every filter in the chain. -/
def matchesFilters (fts : String → String → Bool) (q : Query) (e : Event) :
    Bool :=
  q.filters.all (evalFilt fts e)

/-- Insert into a list sorted by `le`. -/
def insertBy {α : Type} (le : α → α → Bool) (a : α) : List α → List α
  | [] => [a]
  | b :: bs => if le a b then a :: b :: bs else b :: insertBy le a bs

/-- Insertion sort; the reference model of the store's `order` step (the
claims below depend only on it being a permutation). -/
def sortBy {α : Type} (le : α → α → Bool) : List α → List α
  | [] => []
  | a :: as => insertBy le a (sortBy le as)

/-- Row comparison for an `order(col, ascending)` step: numeric on
`event_likes`, string order otherwise. -/
def ordLe (oc : String × Bool) (a b : Event) : Bool :=
  let le := fun (x y : Event) =>
    if oc.1 = "event_likes" then decide (x.event_likes ≤ y.event_likes)
    else !(strLtb (colStr y oc.1) (colStr x oc.1))
  if oc.2 then le a b else le b a

/-- Reference evaluation of a query over an in-memory table: filter, then
sort when an `order` step is present, then truncate when a `limit` is
present. -/
def evalQuery (fts : String → String → Bool) (q : Query) (db : List Event) :
    List Event :=
  let matched := db.filter (fun e => matchesFilters fts q e)
  let sorted :=
    match q.order with
    | none => matched
    | some oc => sortBy (ordLe oc) matched
  match q.lim with
  | none => sorted
  | some n => sorted.take n

theorem mem_insertBy {α : Type} (le : α → α → Bool) (a x : α) (l : List α) :
    x ∈ insertBy le a l ↔ x = a ∨ x ∈ l := by
  induction l with
  | nil => simp [insertBy]
  | cons b bs ih =>
    by_cases h : le a b = true
    · simp [insertBy, h]
    · simp only [insertBy, h, if_neg, Bool.not_eq_true, List.mem_cons, ih]
      tauto

theorem mem_sortBy {α : Type} (le : α → α → Bool) (x : α) (l : List α) :
    x ∈ sortBy le l ↔ x ∈ l := by
  induction l with
  | nil => simp [sortBy]
  | cons a as ih => simp [sortBy, mem_insertBy, ih]

/-- Rows surviving evaluation of a query with no `limit` step are exactly the
rows of the table passing every filter. -/
theorem mem_evalQuery (fts : String → String → Bool) (q : Query)
    (db : List Event) (e : Event) (h : q.lim = none) :
    e ∈ evalQuery fts q db ↔ e ∈ db ∧ matchesFilters fts q e = true := by
  unfold evalQuery
  rw [h]
  cases ho : q.order with
  | none => simp [List.mem_filter]
  | some oc => simp [mem_sortBy, List.mem_filter]

/-- Every row surviving evaluation passes every filter of the query. -/
theorem matches_of_mem_evalQuery (fts : String → String → Bool) (q : Query)
    (db : List Event) (e : Event) (h : e ∈ evalQuery fts q db) :
    matchesFilters fts q e = true := by
  unfold evalQuery at h
  have hf : e ∈ db.filter (fun e => matchesFilters fts q e) := by
    cases hl : q.lim with
    | none =>
      rw [hl] at h
      cases ho : q.order with
      | none => rw [ho] at h; exact h
      | some oc => rw [ho] at h; exact (mem_sortBy _ _ _).mp h
    | some n =>
      rw [hl] at h
      have h' := List.mem_of_mem_take h
      cases ho : q.order with
      | none => rw [ho] at h'; exact h'
      | some oc => rw [ho] at h'; exact (mem_sortBy _ _ _).mp h'
  exact (List.mem_filter.mp hf).2

/-- A query whose filter chain contains `.eq("is_approved", true)` only ever
returns approved rows. -/
theorem approved_of_mem_evalQuery (fts : String → String → Bool) (q : Query)
    (db : List Event) (e : Event)
    (hq : Filt.eqb "is_approved" true ∈ q.filters)
    (h : e ∈ evalQuery fts q db) : e.is_approved = true := by
  have hm := matches_of_mem_evalQuery fts q db e h
  unfold matchesFilters at hm
  have := (List.all_eq_true.mp hm) _ hq
  simpa [evalFilt] using this

/-- Evaluation of a query with `limit n` returns at most `n` rows. -/
theorem length_evalQuery_le (fts : String → String → Bool) (q : Query)
    (db : List Event) (n : Nat) (h : q.lim = some n) :
    (evalQuery fts q db).length ≤ n := by
  unfold evalQuery
  rw [h]
  cases ho : q.order with
  | none => simp [List.length_take_le]
  | some oc => simp [List.length_take_le]

/-! ## The queries the repository builds

One definition per call site.  `bot…` queries are built in `src/index.js`
(the chat handlers), `http…` queries in `src/routes/events.js`, and
`probeQuery` in `src/routes/system.js`.  `now` stands for the
`new Date().toISOString()` value computed at the call site. -/

/-- `handleActiveHackathons`: `event_enddate > now`, approved, newest first. -/
def botActiveQuery (now : String) : Query :=
  { table := "event_details", select := "*"
    filters := [.gt "event_enddate" now, .eqb "is_approved" true]
    order := some ("created_at", false), lim := none }

/-- `handlePastEvents`: `event_enddate < now`, approved, latest first, 5 max. -/
def botPastQuery (now : String) : Query :=
  { table := "event_details", select := "*"
    filters := [.lt "event_enddate" now, .eqb "is_approved" true]
    order := some ("event_enddate", false), lim := some 5 }

/-- `handlePopularEvents`: approved, most-liked first, 5 max. -/
def botPopularQuery : Query :=
  { table := "event_details", select := "*"
    filters := [.eqb "is_approved" true]
    order := some ("event_likes", false), lim := some 5 }

/-- The `text` handler's location search: `event_location ilike %text%`,
approved, no order, no limit. -/
def botLocationQuery (text : String) : Query :=
  { table := "event_details", select := "*"
    filters := [.ilike "event_location" ("%" ++ text ++ "%"),
                .eqb "is_approved" true]
    order := none, lim := none }

/-- The `text` handler's category search: `event_category ilike %text%`,
approved, no order, no limit. -/
def botCategoryQuery (text : String) : Query :=
  { table := "event_details", select := "*"
    filters := [.ilike "event_category" ("%" ++ text ++ "%"),
                .eqb "is_approved" true]
    order := none, lim := none }

/-- The `/ask` handler's search: approved, full-text search of
`event_description` with the user's raw query string, 5 max. -/
def askQuery (qstr : String) : Query :=
  { table := "event_details", select := "*"
    filters := [.eqb "is_approved" true,
                .textSearch "event_description" qstr]
    order := none, lim := some 5 }

/-- `GET /api/events/active`. -/
def httpActiveQuery (now : String) : Query :=
  { table := "event_details", select := "*"
    filters := [.gt "event_enddate" now, .eqb "is_approved" true]
    order := some ("created_at", false), lim := none }

/-- `GET /api/events/past`. -/
def httpPastQuery (now : String) : Query :=
  { table := "event_details", select := "*"
    filters := [.lt "event_enddate" now, .eqb "is_approved" true]
    order := some ("event_enddate", false), lim := some 5 }

/-- `GET /api/events/location/:location`. -/
def httpLocationQuery (location : String) : Query :=
  { table := "event_details", select := "*"
    filters := [.ilike "event_location" ("%" ++ location ++ "%"),
                .eqb "is_approved" true]
    order := none, lim := none }

/-- `GET /api/events/category/:category`. -/
def httpCategoryQuery (category : String) : Query :=
  { table := "event_details", select := "*"
    filters := [.ilike "event_category" ("%" ++ category ++ "%"),
                .eqb "is_approved" true]
    order := none, lim := none }

/-- `GET /api/events/popular`. -/
def httpPopularQuery : Query :=
  { table := "event_details", select := "*"
    filters := [.eqb "is_approved" true]
    order := some ("event_likes", false), lim := some 5 }

/-- `GET /api/system/status` connectivity probe: `select('created_at')`,
no filter at all, `limit(1)`. -/
def probeQuery : Query :=
  { table := "event_details", select := "created_at"
    filters := [], order := none, lim := some 1 }

/-! ## The event presenter -/

/-- The external date-formatting library (`moment(d).format(pattern)`) is a
collaborator outside this repository; its output is opaque to every property
proved here, so it is modelled as returning the raw date text. -/
def momentFormat (_pattern : String) (d : String) : String := d

/-- The price interpolation of `formatEventMessage`:
`isEventFree ? "Free" : "₹" + event_price`. -/
def priceText (e : Event) : String :=
  if e.isEventFree then "Free" else "₹" ++ e.event_price

/-- The registration-link interpolation: rendered only when
`redirection_link` is truthy (present and non-empty). -/
def registerLine (e : Event) : String :=
  match e.redirection_link with
  | some l => if l = "" then "" else "• Register: " ++ l
  | none => ""

/-- The part of the `formatEventMessage` template before the price value. -/
def fmtPre (e : Event) : String :=
  "\n<b>" ++ e.event_title ++ "</b>\n\n📝 <b>Description:</b> " ++
  e.event_description ++ "\n📍 <b>Location:</b> " ++ e.event_location ++
  "\n📅 <b>Start Date:</b> " ++
  momentFormat "MMMM Do YYYY, h:mm a" e.event_startdate ++
  "\n⏳ <b>Duration:</b> " ++ e.event_duration ++
  " hours\n👥 <b>Team Size:</b> " ++ e.team_size ++
  "\n💰 <b>Price:</b> "

/-- The part of the `formatEventMessage` template after the price value. -/
def fmtPost (e : Event) : String :=
  "\n\n<b>Registration:</b>\n• Start: " ++
  momentFormat "MMMM Do YYYY" e.event_registration_startdate ++
  "\n• End: " ++ momentFormat "MMMM Do YYYY" e.event_registration_enddate ++
  "\n" ++ registerLine e ++
  "\n\n<b>Organizer Details:</b>\n• Name: " ++ e.organizer_name ++
  "\n• Email: " ++ e.organizer_email ++
  "\n• Contact: " ++ e.organizer_contact ++
  "\n\n🏷️ <b>Category:</b> " ++ e.event_category ++
  "\n❤️ <b>Likes:</b> " ++ Nat.repr e.event_likes ++
  "\n\n🔗 <b>Event Link:</b> https://www.nexmeet.social/explore-events/" ++
  e.id ++ "\n"

/-- `formatEventMessage` from `src/index.js`: one HTML text block per event. -/
def formatEventMessage (e : Event) : String :=
  fmtPre e ++ priceText e ++ fmtPost e

/-- The user-influenced strings interpolated into the presenter's template
outside the price position. -/
def renderedFields (e : Event) : List String :=
  [e.event_title, e.event_description, e.event_location,
   momentFormat "MMMM Do YYYY, h:mm a" e.event_startdate,
   e.event_duration, e.team_size,
   momentFormat "MMMM Do YYYY" e.event_registration_startdate,
   momentFormat "MMMM Do YYYY" e.event_registration_enddate,
   registerLine e, e.organizer_name, e.organizer_email, e.organizer_contact,
   e.event_category, Nat.repr e.event_likes, e.id]

/-! ## The conversation session map and the chat handlers -/

/-- The two pending states a `userSessions` entry can hold. -/
inductive SessState where
  | awaitingLocation
  | awaitingCategory
deriving DecidableEq

/-- The `userSessions` map: chat identifier to pending state; `none` is the
absence of an entry (the spec's `IDLE`).  A JavaScript `Map` holds at most one
value per key, hence the functional model. -/
def Sessions : Type := Int → Option SessState

/-- Everything a chat handler does that is visible outside the process:
acknowledge a callback, send a message (with its optional `parse_mode`
option — event renders are exactly the sends with `parse_mode: "HTML"`),
issue a store query, call the AI service, or mutate the session map. -/
inductive Action where
  | answerCallback
  | sendMessage (chatId : Int) (text : String) (parseMode : Option String)
  | runQuery (q : Query)
  | aiChat (content : String)
  | sessionSet (chatId : Int) (st : SessState)
  | sessionDelete (chatId : Int)
deriving DecidableEq

/-- Replay one action's effect on the session map (only the two session
mutations touch it). -/
def applyStep (s : Sessions) : Action → Sessions
  | .sessionSet cid st => fun c => if c = cid then some st else s c
  | .sessionDelete cid => fun c => if c = cid then none else s c
  | _ => s

/-- Replay a handler's trace on the session map. -/
def applyTrace (s : Sessions) (tr : List Action) : Sessions :=
  tr.foldl applyStep s

/-- The generic apology of the fetch helpers' catch blocks. -/
def fetchErrorText : String :=
  "Sorry, there was an error fetching the events. Please try again later."

/-- Render a list of events, one HTML message per event. -/
def renderEvents (chatId : Int) (events : List Event) : List Action :=
  events.map (fun e => .sendMessage chatId (formatEventMessage e)
    (some "HTML"))

/-- `handleActiveHackathons(chatId)`: issue the active query; on success list
every row (or a no-results notice), on failure apologise. -/
def handleActiveHackathons (now : String) (chatId : Int)
    (res : Except String (List Event)) : List Action :=
  .runQuery (botActiveQuery now) ::
  match res with
  | .ok events =>
    if events.length = 0 then
      [.sendMessage chatId "No active hackathons found at the moment." none]
    else renderEvents chatId events
  | .error _ => [.sendMessage chatId fetchErrorText none]

/-- `handlePastEvents(chatId)`. -/
def handlePastEvents (now : String) (chatId : Int)
    (res : Except String (List Event)) : List Action :=
  .runQuery (botPastQuery now) ::
  match res with
  | .ok events =>
    if events.length = 0 then [.sendMessage chatId "No past events found." none]
    else renderEvents chatId events
  | .error _ => [.sendMessage chatId fetchErrorText none]

/-- `handlePopularEvents(chatId)`. -/
def handlePopularEvents (chatId : Int)
    (res : Except String (List Event)) : List Action :=
  .runQuery botPopularQuery ::
  match res with
  | .ok events =>
    if events.length = 0 then [.sendMessage chatId "No events found." none]
    else renderEvents chatId events
  | .error _ => [.sendMessage chatId fetchErrorText none]

/-- The `callback_query` handler: acknowledge, then dispatch on the button's
`callback_data`.  The two search buttons write the session entry before
sending their prompt; the three fetch buttons send a status line and run the
corresponding helper, whose store-call outcome is the parameter `res`. -/
def callbackHandler (now : String) (chatId : Int) (action : String)
    (res : Except String (List Event)) : List Action :=
  .answerCallback ::
  (if action = "active_hackathons" then
    .sendMessage chatId "🔍 Searching for active hackathons..." none ::
      handleActiveHackathons now chatId res
  else if action = "past_events" then
    .sendMessage chatId "🔍 Fetching past events..." none ::
      handlePastEvents now chatId res
  else if action = "search_location" then
    [.sessionSet chatId .awaitingLocation,
     .sendMessage chatId
       "📍 Please enter the location you want to search for:" none]
  else if action = "search_category" then
    [.sessionSet chatId .awaitingCategory,
     .sendMessage chatId
       "🏷️ Please enter the category you want to search for:" none]
  else if action = "popular_events" then
    .sendMessage chatId "🔍 Finding the most popular events..." none ::
      handlePopularEvents chatId res
  else [])

/-- The apology of the `text` handler's catch block. -/
def textErrorText : String :=
  "Sorry, there was an error processing your request. Please try again later."

/-- The `bot.on("text")` handler.  With no session entry it returns at once.
Otherwise it announces the search, issues the location or category query, and
on success reports the results and deletes the entry; a store failure jumps
to the catch block, which sends the apology and then deletes the entry. -/
def textHandler (sessions : Sessions) (chatId : Int) (text : String)
    (res : Except String (List Event)) : List Action :=
  match sessions chatId with
  | none => []
  | some .awaitingLocation =>
    .sendMessage chatId ("🔍 Searching for events in " ++ text ++ "...")
      none ::
    .runQuery (botLocationQuery text) ::
    (match res with
     | .ok events =>
       (if events.length = 0 then
         [.sendMessage chatId ("📭 No events found in " ++ text) none]
       else
         .sendMessage chatId
           ("📍 Found " ++ Nat.repr events.length ++ " events in " ++
             text ++ ":") none ::
         renderEvents chatId events) ++
       [.sessionDelete chatId]
     | .error _ =>
       [.sendMessage chatId textErrorText none, .sessionDelete chatId])
  | some .awaitingCategory =>
    .sendMessage chatId
      ("🔍 Searching for events in category " ++ text ++ "...") none ::
    .runQuery (botCategoryQuery text) ::
    (match res with
     | .ok events =>
       (if events.length = 0 then
         [.sendMessage chatId ("📭 No events found in category " ++ text)
           none]
       else
         .sendMessage chatId
           ("🏷️ Found " ++ Nat.repr events.length ++
             " events in category " ++ text ++ ":") none ::
         renderEvents chatId events) ++
       [.sessionDelete chatId]
     | .error _ =>
       [.sendMessage chatId textErrorText none, .sessionDelete chatId])

/-- The prompt the `/ask` handler sends to the AI service, with the user's
query embedded. -/
def askPrompt (qstr : String) : String :=
  "Given this event query: \"" ++ qstr ++
  "\", help me understand what kind of events the user is looking for. " ++
  "Consider factors like timing, category, and location."

/-- The `/ask` handler's apology. -/
def askErrorText : String :=
  "Sorry, I couldn't process your request right now. Please try again later."

/-- The `bot.onText(/\ask (.+)/)` handler: status line, AI call, and — when
the AI call succeeds — a second status line and the full-text search with the
original query string; the AI response itself is bound but never used.  Any
failure jumps to the catch block's apology. -/
def askHandler (chatId : Int) (qstr : String)
    (aiRes : Except String String)
    (res : Except String (List Event)) : List Action :=
  .sendMessage chatId "🤖 Processing your request with AI..." none ::
  .aiChat (askPrompt qstr) ::
  match aiRes with
  | .error _ => [.sendMessage chatId askErrorText none]
  | .ok _aiResponse =>
    .sendMessage chatId "🔍 Searching for matching events..." none ::
    .runQuery (askQuery qstr) ::
    match res with
    | .ok events =>
      if events.length = 0 then
        [.sendMessage chatId
          "📭 I couldn't find any events matching your criteria." none]
      else
        .sendMessage chatId
          ("✨ Found " ++ Nat.repr events.length ++
            " events that might interest you:") none ::
        renderEvents chatId events
    | .error _ => [.sendMessage chatId askErrorText none]

/-- The `/api/system/status` response body (the fields the route writes). -/
structure StatusResponse where
  httpCode : Nat
  status : String
  serverStatus : String
  serverTimestamp : String
  dbStatus : String
  dbTimestamp : Option String
  dbError : Option String
deriving DecidableEq

/-- The `GET /api/system/status` route: probe the table, then build the JSON
body.  On success `database.timestamp` is
`data?.[0]?.created_at || new Date().toISOString()` — the first probed row's
`created_at` when that value is truthy (non-empty), else the current time. -/
def systemStatusHandler (now : String)
    (res : Except String (List Event)) : StatusResponse :=
  match res with
  | .ok rows =>
    { httpCode := 200, status := "ok"
      serverStatus := "running", serverTimestamp := now
      dbStatus := "connected"
      dbTimestamp := some (match rows with
        | [] => now
        | r :: _ => if r.created_at = "" then now else r.created_at)
      dbError := none }
  | .error e =>
    { httpCode := 500, status := "error"
      serverStatus := "running", serverTimestamp := now
      dbStatus := "error", dbTimestamp := none, dbError := some e }

/-! ## Trace observations -/

/-- Is this action a store query? -/
def isQueryAct : Action → Bool
  | .runQuery _ => true
  | _ => false

/-- Is this action an AI-service call? -/
def isAiAct : Action → Bool
  | .aiChat _ => true
  | _ => false

/-- Is this action an event render (a send with `parse_mode: "HTML"`)? -/
def isRenderAct : Action → Bool
  | .sendMessage _ _ (some "HTML") => true
  | _ => false

/-- Position of the first occurrence of an action in a trace. -/
def idxOfAct (tr : List Action) (a : Action) : Nat :=
  tr.findIdx (fun x => x == a)

theorem applyTrace_nil (s : Sessions) : applyTrace s [] = s := rfl

theorem applyTrace_cons (s : Sessions) (a : Action) (tr : List Action) :
    applyTrace s (a :: tr) = applyTrace (applyStep s a) tr := rfl

theorem applyTrace_append (s : Sessions) (t₁ t₂ : List Action) :
    applyTrace s (t₁ ++ t₂) = applyTrace (applyTrace s t₁) t₂ :=
  List.foldl_append ..

/-- A trace ending in `sessionDelete cid` leaves no entry for `cid`. -/
theorem applyTrace_delete_last (s : Sessions) (tr : List Action) (cid : Int) :
    applyTrace s (tr ++ [.sessionDelete cid]) cid = none := by
  rw [applyTrace_append]
  simp [applyTrace, applyStep]

/-- Whatever state a `text` message finds a pending entry in, and whether the
store call succeeds or fails, the handler's trace deletes that entry. -/
theorem textHandler_clears (sessions : Sessions) (cid : Int) (text : String)
    (res : Except String (List Event)) (st : SessState)
    (h : sessions cid = some st) :
    applyTrace sessions (textHandler sessions cid text res) cid = none := by
  cases st <;> cases res <;>
    simp only [textHandler, h] <;>
    rw [applyTrace_cons, applyTrace_cons]
  case awaitingLocation.ok events =>
    exact applyTrace_delete_last _ _ _
  case awaitingLocation.error e =>
    simp [applyTrace, applyStep]
  case awaitingCategory.ok events =>
    exact applyTrace_delete_last _ _ _
  case awaitingCategory.error e =>
    simp [applyTrace, applyStep]

/-- Selecting the search-by-location button writes `AWAITING_LOCATION` for
that chat, whatever was there before. -/
theorem callback_location_sets (s : Sessions) (now : String) (cid : Int)
    (res : Except String (List Event)) :
    applyTrace s (callbackHandler now cid "search_location" res) cid =
      some .awaitingLocation := by
  simp [callbackHandler, applyTrace, applyStep]

/-- Selecting the search-by-category button writes `AWAITING_CATEGORY` for
that chat, whatever was there before. -/
theorem callback_category_sets (s : Sessions) (now : String) (cid : Int)
    (res : Except String (List Event)) :
    applyTrace s (callbackHandler now cid "search_category" res) cid =
      some .awaitingCategory := by
  simp [callbackHandler, applyTrace, applyStep]

/-- C1: for every chat identifier, after `search_location` is selected and
any single free-text message follows, the session map has no entry for that
identifier once the `text` handler finishes — whether the store query
succeeds (`res = .ok …`, any row list) or fails (`res = .error …`). -/
theorem c1_location_search_always_clears_session (sessions : Sessions)
    (chatId : Int) (now text : String)
    (res₀ res : Except String (List Event)) :
    applyTrace
      (applyTrace sessions (callbackHandler now chatId "search_location" res₀))
      (textHandler
        (applyTrace sessions (callbackHandler now chatId "search_location" res₀))
        chatId text res)
      chatId = none :=
  textHandler_clears _ chatId text res .awaitingLocation
    (callback_location_sets sessions now chatId res₀)

/-- C3: selecting `search_location` and then `search_category` with no
intervening text message leaves exactly the pending state
`AWAITING_CATEGORY` for that chat identifier; more generally either search
selection overwrites whatever pending entry existed before (the map — a
function from chat identifier to at most one state — can never accumulate
two pending interactions for one chat). -/
theorem c3_selection_overwrites_pending (sessions : Sessions) (chatId : Int)
    (now : String) (res₁ res₂ : Except String (List Event)) :
    applyTrace
      (applyTrace sessions (callbackHandler now chatId "search_location" res₁))
      (callbackHandler now chatId "search_category" res₂) chatId =
        some .awaitingCategory ∧
    (∀ s : Sessions,
      applyTrace s (callbackHandler now chatId "search_location" res₁)
        chatId = some .awaitingLocation) ∧
    (∀ s : Sessions,
      applyTrace s (callbackHandler now chatId "search_category" res₂)
        chatId = some .awaitingCategory) :=
  ⟨callback_category_sets _ now chatId res₂,
   fun s => callback_location_sets s now chatId res₁,
   fun s => callback_category_sets s now chatId res₂⟩

/-- C8: a free-text message from a chat identifier with no pending entry
produces an empty trace — in particular no store query — and leaves the
whole session map unchanged. -/
theorem c8_idle_text_is_noop (sessions : Sessions) (chatId : Int)
    (text : String) (res : Except String (List Event))
    (h : sessions chatId = none) :
    textHandler sessions chatId text res = [] ∧
    (textHandler sessions chatId text res).filter isQueryAct = [] ∧
    applyTrace sessions (textHandler sessions chatId text res) = sessions := by
  refine ⟨?_, ?_, ?_⟩ <;> simp [textHandler, h, applyTrace]

/-- Witness for C8 at a concrete input: the empty session map, chat 42,
message "hi", a succeeding store. -/
theorem c8_idle_text_is_noop_witness :
    (fun (_ : Int) => (none : Option SessState)) 42 = none ∧
    (textHandler (fun _ => none) 42 "hi" (.ok []) = [] ∧
     (textHandler (fun _ => none) 42 "hi" (.ok [])).filter isQueryAct = [] ∧
     applyTrace (fun _ => none) (textHandler (fun _ => none) 42 "hi" (.ok [])) =
       fun _ => none) :=
  ⟨rfl, c8_idle_text_is_noop (fun _ => none) 42 "hi" (.ok []) rfl⟩

/-- C2 counterexample: in the concrete failing execution — chat 42 pending
`AWAITING_LOCATION`, message "Delhi", store failure "boom" — both the session
delete and the outbound error report occur, but the delete does NOT precede
the error message (the catch block sends first, deletes second). -/
theorem c2_counterexample_delete_after_error :
    Action.sessionDelete 42 ∈
      textHandler (fun c => if c = 42 then some .awaitingLocation else none)
        42 "Delhi" (.error "boom") ∧
    Action.sendMessage 42 textErrorText none ∈
      textHandler (fun c => if c = 42 then some .awaitingLocation else none)
        42 "Delhi" (.error "boom") ∧
    ¬ idxOfAct
        (textHandler (fun c => if c = 42 then some .awaitingLocation else none)
          42 "Delhi" (.error "boom"))
        (.sessionDelete 42) <
      idxOfAct
        (textHandler (fun c => if c = 42 then some .awaitingLocation else none)
          42 "Delhi" (.error "boom"))
        (.sendMessage 42 textErrorText none) := by
  refine ⟨?_, ?_, ?_⟩ <;> decide

/-- C2 amended: when the store call of a pending location/category search
fails, the handler still sends the failure report and still clears the
pending entry (ending in `IDLE`), but the clear happens immediately AFTER
the outbound error message, not before it: the trace ends with the error
send followed by the delete, and no delete occurs earlier. -/
theorem c2_error_reports_then_clears (sessions : Sessions) (cid : Int)
    (text e : String) (st : SessState) (h : sessions cid = some st) :
    ∃ pre : List Action,
      textHandler sessions cid text (.error e) =
        pre ++ [.sendMessage cid textErrorText none, .sessionDelete cid] ∧
      Action.sessionDelete cid ∉ pre ∧
      applyTrace sessions (textHandler sessions cid text (.error e)) cid =
        none := by
  cases st with
  | awaitingLocation =>
    refine ⟨[.sendMessage cid ("🔍 Searching for events in " ++ text ++ "...")
        none, .runQuery (botLocationQuery text)], ?_, ?_, ?_⟩
    · simp [textHandler, h]
    · simp
    · exact textHandler_clears sessions cid text (.error e) _ h
  | awaitingCategory =>
    refine ⟨[.sendMessage cid
        ("🔍 Searching for events in category " ++ text ++ "...") none,
        .runQuery (botCategoryQuery text)], ?_, ?_, ?_⟩
    · simp [textHandler, h]
    · simp
    · exact textHandler_clears sessions cid text (.error e) _ h

/-- Witness for the amended C2 at a concrete input: chat 42 pending
`AWAITING_LOCATION`, message "Delhi", store failure "boom". -/
theorem c2_error_reports_then_clears_witness :
    (fun c => if c = 42 then some SessState.awaitingLocation else none) 42 =
      some SessState.awaitingLocation ∧
    (∃ pre : List Action,
      textHandler (fun c => if c = 42 then some .awaitingLocation else none)
          42 "Delhi" (.error "boom") =
        pre ++ [.sendMessage 42 textErrorText none, .sessionDelete 42] ∧
      Action.sessionDelete 42 ∉ pre ∧
      applyTrace (fun c => if c = 42 then some .awaitingLocation else none)
        (textHandler (fun c => if c = 42 then some .awaitingLocation else none)
          42 "Delhi" (.error "boom")) 42 = none) :=
  ⟨by decide,
   c2_error_reports_then_clears
     (fun c => if c = 42 then some .awaitingLocation else none)
     42 "Delhi" "boom" .awaitingLocation (by decide)⟩

theorem renderEvents_filter_query (cid : Int) (evs : List Event) :
    (renderEvents cid evs).filter isQueryAct = [] := by
  induction evs with
  | nil => rfl
  | cons e es ih =>
    rw [renderEvents, List.map_cons, List.filter_cons]
    simp [isQueryAct]

theorem renderEvents_filter_ai (cid : Int) (evs : List Event) :
    (renderEvents cid evs).filter isAiAct = [] := by
  induction evs with
  | nil => rfl
  | cons e es ih =>
    rw [renderEvents, List.map_cons, List.filter_cons]
    simp [isAiAct]

theorem renderEvents_filter_render (cid : Int) (evs : List Event) :
    (renderEvents cid evs).filter isRenderAct = renderEvents cid evs := by
  induction evs with
  | nil => rfl
  | cons e es ih =>
    rw [renderEvents, List.map_cons, List.filter_cons]
    simp [isRenderAct]

theorem renderEvents_length (cid : Int) (evs : List Event) :
    (renderEvents cid evs).length = evs.length :=
  List.length_map ..

/-- C4: handling `/ask q` with a successful AI call issues exactly one
AI-interpretation call (with `q` embedded in the prompt) and exactly one
store search, the search is `askQuery q` — a full-text search of
`event_description` whose argument is the literal original string `q`, not
the AI response — and at most 5 events are rendered to the user (the query
carries `limit 5` and the store honours it); when the store call fails the
two calls are still one each and nothing is rendered. -/
theorem c4_ask_one_ai_one_literal_search_five_renders (chatId : Int)
    (qstr aiResponse e : String) (db : List Event)
    (fts : String → String → Bool) :
    (askHandler chatId qstr (.ok aiResponse)
        (.ok (evalQuery fts (askQuery qstr) db))).filter isAiAct =
      [.aiChat (askPrompt qstr)] ∧
    (askHandler chatId qstr (.ok aiResponse)
        (.ok (evalQuery fts (askQuery qstr) db))).filter isQueryAct =
      [.runQuery (askQuery qstr)] ∧
    (askQuery qstr).filters =
      [.eqb "is_approved" true, .textSearch "event_description" qstr] ∧
    ((askHandler chatId qstr (.ok aiResponse)
        (.ok (evalQuery fts (askQuery qstr) db))).filter
      isRenderAct).length ≤ 5 ∧
    (askHandler chatId qstr (.ok aiResponse) (.error e)).filter isAiAct =
      [.aiChat (askPrompt qstr)] ∧
    (askHandler chatId qstr (.ok aiResponse) (.error e)).filter isQueryAct =
      [.runQuery (askQuery qstr)] ∧
    ((askHandler chatId qstr (.ok aiResponse) (.error e)).filter
      isRenderAct).length = 0 := by
  have hlen : (evalQuery fts (askQuery qstr) db).length ≤ 5 :=
    length_evalQuery_le fts (askQuery qstr) db 5 rfl
  refine ⟨?_, ?_, rfl, ?_, ?_, ?_, ?_⟩
  · by_cases h : (evalQuery fts (askQuery qstr) db).length = 0 <;>
      simp [askHandler, h, isAiAct, renderEvents_filter_ai]
  · by_cases h : (evalQuery fts (askQuery qstr) db).length = 0 <;>
      simp [askHandler, h, isQueryAct, renderEvents_filter_query]
  · by_cases h : (evalQuery fts (askQuery qstr) db).length = 0 <;>
      simp [askHandler, h, isRenderAct, renderEvents_filter_render,
        renderEvents_length, hlen]
  · simp [askHandler, isAiAct]
  · simp [askHandler, isQueryAct]
  · simp [askHandler, isRenderAct]

/-- C5: for every store state, the past and popular queries (chat and HTTP)
return at most 5 rows, while the active query and the location/category
filters (chat and HTTP) return exactly the rows passing their filters — every
matching record, no cap. -/
theorem c5_past_popular_capped_others_uncapped (now s : String)
    (db : List Event) (fts : String → String → Bool) :
    (evalQuery fts (botPastQuery now) db).length ≤ 5 ∧
    (evalQuery fts (httpPastQuery now) db).length ≤ 5 ∧
    (evalQuery fts botPopularQuery db).length ≤ 5 ∧
    (evalQuery fts httpPopularQuery db).length ≤ 5 ∧
    (∀ e, e ∈ evalQuery fts (botActiveQuery now) db ↔
      e ∈ db ∧ matchesFilters fts (botActiveQuery now) e = true) ∧
    (∀ e, e ∈ evalQuery fts (httpActiveQuery now) db ↔
      e ∈ db ∧ matchesFilters fts (httpActiveQuery now) e = true) ∧
    (∀ e, e ∈ evalQuery fts (botLocationQuery s) db ↔
      e ∈ db ∧ matchesFilters fts (botLocationQuery s) e = true) ∧
    (∀ e, e ∈ evalQuery fts (botCategoryQuery s) db ↔
      e ∈ db ∧ matchesFilters fts (botCategoryQuery s) e = true) ∧
    (∀ e, e ∈ evalQuery fts (httpLocationQuery s) db ↔
      e ∈ db ∧ matchesFilters fts (httpLocationQuery s) e = true) ∧
    (∀ e, e ∈ evalQuery fts (httpCategoryQuery s) db ↔
      e ∈ db ∧ matchesFilters fts (httpCategoryQuery s) e = true) :=
  ⟨length_evalQuery_le fts _ db 5 rfl,
   length_evalQuery_le fts _ db 5 rfl,
   length_evalQuery_le fts _ db 5 rfl,
   length_evalQuery_le fts _ db 5 rfl,
   fun e => mem_evalQuery fts _ db e rfl,
   fun e => mem_evalQuery fts _ db e rfl,
   fun e => mem_evalQuery fts _ db e rfl,
   fun e => mem_evalQuery fts _ db e rfl,
   fun e => mem_evalQuery fts _ db e rfl,
   fun e => mem_evalQuery fts _ db e rfl⟩

/-- An approved, currently active event in New Delhi: concrete input for the
query-level witnesses. -/
def evActive : Event :=
  { id := "1", event_title := "HackNight", event_description := "a hackathon"
    event_location := "New Delhi", event_category := "Tech"
    event_startdate := "2026-02-01", event_enddate := "2026-02-02"
    event_duration := "24", team_size := "4", event_price := "0"
    isEventFree := true
    event_registration_startdate := "2026-01-01"
    event_registration_enddate := "2026-01-20"
    redirection_link := none
    organizer_name := "N", organizer_email := "n@x.y"
    organizer_contact := "123", event_likes := 3
    is_approved := true, created_at := "2025-12-01" }

/-- An approved past event: concrete input for the query-level witnesses. -/
def evPast : Event :=
  { evActive with
    id := "2",
    event_location := "Mumbai",
    event_startdate := "2024-03-02",
    event_enddate := "2024-03-03",
    created_at := "2024-01-01" }

/-- A NOT-approved event: concrete input showing the status probe ignores
the approval flag. -/
def evUnapproved : Event :=
  { evActive with
    id := "3",
    is_approved := false,
    created_at := "2024-05-05" }

/-- Witness for C5 at a concrete store state (two rows, one active and one
past), chat query inputs `now = "2025-06-15"`, search string `"Del"`. -/
theorem c5_past_popular_capped_others_uncapped_witness :
    (evalQuery (fun _ _ => true) (botPastQuery "2025-06-15")
      [evActive, evPast]).length ≤ 5 ∧
    (evActive ∈ evalQuery (fun _ _ => true) (botLocationQuery "Del")
        [evActive, evPast] ↔
      evActive ∈ [evActive, evPast] ∧
        matchesFilters (fun _ _ => true) (botLocationQuery "Del") evActive =
          true) :=
  ⟨(c5_past_popular_capped_others_uncapped "2025-06-15" "Del"
      [evActive, evPast] (fun _ _ => true)).1,
   (c5_past_popular_capped_others_uncapped "2025-06-15" "Del"
      [evActive, evPast] (fun _ _ => true)).2.2.2.2.2.2.1 evActive⟩

/-- C6: every row returned by any of the five list operations, on the chat
surface and on the HTTP surface alike, has the approval flag set — each of
the ten queries carries `.eq("is_approved", true)` in its filter chain. -/
theorem c6_all_list_results_approved (now s : String) (db : List Event)
    (fts : String → String → Bool) (e : Event) :
    (e ∈ evalQuery fts (botActiveQuery now) db → e.is_approved = true) ∧
    (e ∈ evalQuery fts (botPastQuery now) db → e.is_approved = true) ∧
    (e ∈ evalQuery fts (botLocationQuery s) db → e.is_approved = true) ∧
    (e ∈ evalQuery fts (botCategoryQuery s) db → e.is_approved = true) ∧
    (e ∈ evalQuery fts botPopularQuery db → e.is_approved = true) ∧
    (e ∈ evalQuery fts (httpActiveQuery now) db → e.is_approved = true) ∧
    (e ∈ evalQuery fts (httpPastQuery now) db → e.is_approved = true) ∧
    (e ∈ evalQuery fts (httpLocationQuery s) db → e.is_approved = true) ∧
    (e ∈ evalQuery fts (httpCategoryQuery s) db → e.is_approved = true) ∧
    (e ∈ evalQuery fts httpPopularQuery db → e.is_approved = true) :=
  ⟨approved_of_mem_evalQuery fts _ db e (by simp [botActiveQuery]),
   approved_of_mem_evalQuery fts _ db e (by simp [botPastQuery]),
   approved_of_mem_evalQuery fts _ db e (by simp [botLocationQuery]),
   approved_of_mem_evalQuery fts _ db e (by simp [botCategoryQuery]),
   approved_of_mem_evalQuery fts _ db e (by simp [botPopularQuery]),
   approved_of_mem_evalQuery fts _ db e (by simp [httpActiveQuery]),
   approved_of_mem_evalQuery fts _ db e (by simp [httpPastQuery]),
   approved_of_mem_evalQuery fts _ db e (by simp [httpLocationQuery]),
   approved_of_mem_evalQuery fts _ db e (by simp [httpCategoryQuery]),
   approved_of_mem_evalQuery fts _ db e (by simp [httpPopularQuery])⟩

/-- Witness for C6 at a concrete input: over the table
`[evActive, evPast, evUnapproved]` the active row is returned by the chat
location query and by the chat active query, and is indeed approved. -/
theorem c6_all_list_results_approved_witness :
    (evActive ∈ evalQuery (fun _ _ => true) (botLocationQuery "Del")
      [evActive, evPast, evUnapproved] ∧ evActive.is_approved = true) ∧
    (evActive ∈ evalQuery (fun _ _ => true) (botActiveQuery "2025-06-15")
      [evActive, evPast, evUnapproved] ∧ evActive.is_approved = true) :=
  ⟨⟨by decide,
    (c6_all_list_results_approved "2025-06-15" "Del"
      [evActive, evPast, evUnapproved] (fun _ _ => true) evActive).2.2.1
      (by decide)⟩,
   ⟨by decide,
    (c6_all_list_results_approved "2025-06-15" "Del"
      [evActive, evPast, evUnapproved] (fun _ _ => true) evActive).1
      (by decide)⟩⟩

/-- A substring sits inside any surrounding concatenation. -/
theorem data_infix_of_append (a t b : String) :
    t.data <:+: (a ++ t ++ b).data :=
  ⟨a.data, b.data, by rw [String.data_append, String.data_append]⟩

/-- A character absent from both halves is absent from a concatenation. -/
theorem char_not_mem_append (c : Char) (a b : String) (ha : c ∉ a.data)
    (hb : c ∉ b.data) : c ∉ (a ++ b).data := by
  rw [String.data_append]
  intro h
  rcases List.mem_append.mp h with h1 | h2
  · exact ha h1
  · exact hb h2

/-- A free event whose description text itself carries a currency amount:
counterexample input for the claim that a free event's rendering never
contains a currency-prefixed amount. -/
def evRupee : Event :=
  { evActive with
    event_description := "₹100 prize pool hackathon" }

/-- C7 counterexample: `evRupee` has the free flag set, yet the presenter's
output does contain the currency character (the description is interpolated
verbatim), so "contains no currency-prefixed amount" fails for a well-formed
free event. -/
theorem c7_counterexample_free_event_with_currency_in_text :
    evRupee.isEventFree = true ∧
    '₹' ∈ (formatEventMessage evRupee).data := by
  refine ⟨rfl, ?_⟩
  decide

/-- C7 amended: a paid event's rendering contains the currency-prefixed
price; a free event's rendering contains "Free"; and a free event's
rendering contains no currency character PROVIDED none of the other
interpolated fields carries one (the restriction the counterexample
forces). -/
theorem c7_price_rendering (e : Event) :
    (e.isEventFree = false →
      ("₹" ++ e.event_price).data <:+: (formatEventMessage e).data) ∧
    (e.isEventFree = true →
      "Free".data <:+: (formatEventMessage e).data) ∧
    (e.isEventFree = true →
      (∀ s ∈ renderedFields e, '₹' ∉ s.data) →
      '₹' ∉ (formatEventMessage e).data) := by
  refine ⟨?_, ?_, ?_⟩
  · intro hp
    have hpt : priceText e = "₹" ++ e.event_price := by
      simp [priceText, hp]
    rw [formatEventMessage, hpt]
    exact data_infix_of_append ..
  · intro hf
    have hpt : priceText e = "Free" := by simp [priceText, hf]
    rw [formatEventMessage, hpt]
    exact data_infix_of_append ..
  · intro hf h
    have hpt : priceText e = "Free" := by simp [priceText, hf]
    rw [formatEventMessage, hpt]
    simp only [fmtPre, fmtPost]
    repeat' apply char_not_mem_append
    all_goals
      first
        | decide
        | exact h _ (by simp [renderedFields])

/-- Witness for the amended C7 at concrete inputs: the free event `evActive`
(clean fields) renders "Free" and no currency character; the paid variant
renders "₹499". -/
theorem c7_price_rendering_witness :
    ((evActive.isEventFree = true ∧
      (∀ s ∈ renderedFields evActive, '₹' ∉ s.data)) ∧
     "Free".data <:+: (formatEventMessage evActive).data ∧
     '₹' ∉ (formatEventMessage evActive).data) ∧
    (({ evActive with isEventFree := false, event_price := "499" } :
        Event).isEventFree = false ∧
     ("₹" ++ "499").data <:+:
       (formatEventMessage
         { evActive with isEventFree := false, event_price := "499" }).data) :=
  ⟨⟨⟨rfl, by decide⟩,
    (c7_price_rendering evActive).2.1 rfl,
    (c7_price_rendering evActive).2.2 rfl (by decide)⟩,
   ⟨rfl,
    (c7_price_rendering
      { evActive with isEventFree := false, event_price := "499" }).1 rfl⟩⟩

/-- Boolean literal-substring test (case-sensitive, no wildcards): used to
contrast `ilike` pattern matching with literal containment. -/
def strIncludes (pat s : String) : Bool :=
  s.data.tails.any (fun suf => pat.data.isPrefixOf suf)

theorem strIncludes_iff (pat s : String) :
    strIncludes pat s = true ↔ pat.data <:+: s.data := by
  unfold strIncludes
  rw [List.any_eq_true]
  constructor
  · rintro ⟨suf, hmem, hpre⟩
    exact List.infix_iff_prefix_suffix.mpr
      ⟨suf, List.isPrefixOf_iff_prefix.mp hpre, (List.mem_tails _ _).mp hmem⟩
  · intro h
    obtain ⟨t, hp, hs⟩ := List.infix_iff_prefix_suffix.mp h
    exact ⟨t, (List.mem_tails _ _).mpr hs, List.isPrefixOf_iff_prefix.mpr hp⟩

/-- A probed row whose `created_at` happens to be the empty string:
counterexample input for the status route's timestamp claim. -/
def evNoCreated : Event :=
  { evActive with
    created_at := "" }

/-- C9 counterexample: the probe does return a row (`evNoCreated`), yet the
response's `database.timestamp` is the current time, not that row's creation
time — `data?.[0]?.created_at || now` falls through on a falsy (empty)
`created_at`. -/
theorem c9_counterexample_empty_created_at :
    evalQuery (fun _ _ => false) probeQuery [evNoCreated] = [evNoCreated] ∧
    (systemStatusHandler "2025-06-15T10:00:00.000Z"
        (.ok (evalQuery (fun _ _ => false) probeQuery
          [evNoCreated]))).dbTimestamp =
      some "2025-06-15T10:00:00.000Z" ∧
    evNoCreated.created_at ≠ "2025-06-15T10:00:00.000Z" := by
  refine ⟨?_, ?_, ?_⟩ <;> decide

/-- C9 amended: the status probe selects `created_at` from the event table
with `limit 1` and an empty filter chain — in particular no approval-flag
filter, so it reads the first stored row approved or not; on success the
response's `database.timestamp` is the probed row's creation time when a row
exists AND its creation time is truthy (non-empty), and the current time when
the result is empty or the creation time is falsy. -/
theorem c9_status_probe_unfiltered_timestamp (now : String) (db : List Event)
    (fts : String → String → Bool) :
    probeQuery.filters = [] ∧
    probeQuery.lim = some 1 ∧
    probeQuery.select = "created_at" ∧
    evalQuery fts probeQuery db = db.take 1 ∧
    (db = [] →
      (systemStatusHandler now
        (.ok (evalQuery fts probeQuery db))).dbTimestamp = some now) ∧
    (∀ r t, db = r :: t → r.created_at ≠ "" →
      (systemStatusHandler now
        (.ok (evalQuery fts probeQuery db))).dbTimestamp =
          some r.created_at) ∧
    (∀ r t, db = r :: t → r.created_at = "" →
      (systemStatusHandler now
        (.ok (evalQuery fts probeQuery db))).dbTimestamp = some now) := by
  have heval : evalQuery fts probeQuery db = db.take 1 := by
    simp [evalQuery, probeQuery, matchesFilters]
  refine ⟨rfl, rfl, rfl, heval, ?_, ?_, ?_⟩
  · intro h
    subst h
    simp [systemStatusHandler, heval]
  · intro r t h hne
    subst h
    simp [systemStatusHandler, heval, hne]
  · intro r t h he
    subst h
    simp [systemStatusHandler, heval, he]

/-- Witness for the amended C9 at a concrete input: a table whose first (and
only) row is NOT approved; the probe still returns it, and its non-empty
creation time is reported as `database.timestamp`. -/
theorem c9_status_probe_unfiltered_timestamp_witness :
    evUnapproved.is_approved = false ∧
    evalQuery (fun _ _ => false) probeQuery [evUnapproved] = [evUnapproved] ∧
    ([evUnapproved] = evUnapproved :: [] ∧ evUnapproved.created_at ≠ "") ∧
    (systemStatusHandler "2025-06-15T10:00:00.000Z"
        (.ok (evalQuery (fun _ _ => false) probeQuery
          [evUnapproved]))).dbTimestamp = some evUnapproved.created_at :=
  ⟨rfl, by decide, ⟨rfl, by decide⟩,
   (c9_status_probe_unfiltered_timestamp "2025-06-15T10:00:00.000Z"
     [evUnapproved] (fun _ _ => false)).2.2.2.2.2.1 evUnapproved [] rfl
     (by decide)⟩

/-- C10: on both surfaces the location and category filters build their
match pattern by literal concatenation `"%" ++ s ++ "%"` with no escaping of
`%` or `_`; consequently a search string containing `%` or `_` is interpreted
as wildcards — `"New%Delhi"` matches the stored location `"New Delhi"`
(which does not literally contain `"New%Delhi"`), and `"N_w"` matches it
too (no literal `"N_w"` either). -/
theorem c10_unescaped_wildcard_patterns (s : String) :
    (botLocationQuery s).filters =
      [.ilike "event_location" ("%" ++ s ++ "%"),
       .eqb "is_approved" true] ∧
    (botCategoryQuery s).filters =
      [.ilike "event_category" ("%" ++ s ++ "%"),
       .eqb "is_approved" true] ∧
    (httpLocationQuery s).filters =
      [.ilike "event_location" ("%" ++ s ++ "%"),
       .eqb "is_approved" true] ∧
    (httpCategoryQuery s).filters =
      [.ilike "event_category" ("%" ++ s ++ "%"),
       .eqb "is_approved" true] ∧
    evActive.event_location = "New Delhi" ∧
    evalQuery (fun _ _ => false) (botLocationQuery "New%Delhi") [evActive] =
      [evActive] ∧
    strIncludes "New%Delhi" evActive.event_location = false ∧
    likeMatch ("%" ++ "N_w" ++ "%").data evActive.event_location.data =
      true ∧
    strIncludes "N_w" evActive.event_location = false := by
  refine ⟨rfl, rfl, rfl, rfl, rfl, ?_, ?_, ?_, ?_⟩ <;> decide

end NexmeetBot
